import Mathlib

/-!
Verification development for the release reconciliation controller.

The development shallowly embeds the two source files:

* `pkg/storage` condition constructors (`ConditionAvailable`, `ConditionFailure`,
  `ConditionCreating`, `ConditionUpdating`, `ConditionRollbacking`): pure
  constructors of `ReleaseCondition` values.  The side-effecting call
  `metav1.Now()` is modelled by an explicit `now : Nat` argument.

* `pkg/controller/release/controller.go`: the enqueue path
  (`keyForObj` / `enqueueRelease` and the informer event-handler wiring),
  the worker loop (`worker`, `processNextWorkItem`) and the lifecycle
  entry point (`Run`).  Stateful interactions with the work queue, the
  lister cache and the release manager are modelled by explicit event
  traces: each function returns the list of calls it performs, in order.
  The environment (lister lookup results, manager Trigger/Delete/Run
  error outcomes) is an explicit record of pure functions, and a `defer`
  statement is modelled by appending its call at the end of every path
  opened after the `defer` was installed.
-/

namespace ReleaseController

/-! ## Status model: condition types and statuses

From the clientset API referenced by `pkg/storage`: condition types
`ReleaseProgressing` / `ReleaseAvailable` / `ReleaseFailure` and the core
condition statuses. -/

inductive ReleaseConditionType where
  | ReleaseProgressing
  | ReleaseAvailable
  | ReleaseFailure
  deriving DecidableEq

inductive ConditionStatus where
  | ConditionTrue
  | ConditionFalse
  | ConditionUnknown
  deriving DecidableEq

/-- `releaseapi.ReleaseCondition`: fields in source order
(Type, Status, LastTransitionTime, Reason, Message). -/
structure ReleaseCondition where
  type : ReleaseConditionType
  status : ConditionStatus
  lastTransitionTime : Nat
  reason : String
  message : String
  deriving DecidableEq

/-! Reasons for releases (`pkg/storage`, const block). -/

def ReasonAvailable : String := "Available"

def ReasonFailure : String := "Failure"

def ReasonCreating : String := "Creating"

def ReasonUpdating : String := "Updating"

def ReasonRollbacking : String := "Rollbacking"

/-- ConditionAvailable returns an available condition. -/
def ConditionAvailable (now : Nat) : ReleaseCondition :=
  ⟨.ReleaseAvailable, .ConditionTrue, now, ReasonAvailable, ""⟩

/-- ConditionFailure returns a failure condition. -/
def ConditionFailure (now : Nat) (message : String) : ReleaseCondition :=
  ⟨.ReleaseFailure, .ConditionTrue, now, ReasonFailure, message⟩

/-- ConditionCreating returns a creating condition. -/
def ConditionCreating (now : Nat) : ReleaseCondition :=
  ⟨.ReleaseProgressing, .ConditionTrue, now, ReasonCreating, ""⟩

/-- ConditionUpdating returns a updating condition. -/
def ConditionUpdating (now : Nat) : ReleaseCondition :=
  ⟨.ReleaseProgressing, .ConditionTrue, now, ReasonUpdating, ""⟩

/-- ConditionRollbacking returns a rollbacking condition. -/
def ConditionRollbacking (now : Nat) : ReleaseCondition :=
  ⟨.ReleaseProgressing, .ConditionTrue, now, ReasonRollbacking, ""⟩

/-! ## Controller data model -/

/-- A release object as the controller sees it: only namespace and name are
inspected by the embedded code (`ns` stands for the Go field `Namespace`,
a Lean keyword). -/
structure Release where
  ns : String
  name : String
  deriving DecidableEq

/-- Operations on the rate-limiting work queue
(`workqueue.RateLimitingInterface`). -/
inductive QueueOp where
  | add (key : String)
  | addRateLimited (key : String)
  | forget (key : String)
  | done (key : String)
  deriving DecidableEq

/-- One observable call performed by the worker: a queue operation, the
consistency sweep `manager.Run()`, a `manager.Trigger` or `manager.Delete`
call, or a `glog.Errorf` record. -/
inductive Event where
  | queueOp (op : QueueOp)
  | managerRun
  | triggerCall (r : Release)
  | deleteCall (ns name : String)
  | logError (msg : String)
  deriving DecidableEq

/-- Result of `rc.releaseLister.Releases(namespace).Get(name)`, classified the
way the Go code classifies it: a release with `err = nil`, an error for which
`errors.IsNotFound` holds, or any other error. -/
inductive LookupResult where
  | found (r : Release)
  | errNotFound
  | errOther
  deriving DecidableEq

/-- The worker's environment: the lister cache and the release manager.
`triggerErr r = true` models `manager.Trigger(r)` returning a non-nil error,
`deleteErr ns name = true` models `manager.Delete(ns, name)` returning a
non-nil error. -/
structure Env where
  lookup : String → String → LookupResult
  triggerErr : Release → Bool
  deleteErr : String → String → Bool

/-- Go `strings.Split(key, "/")` on a list of characters: splits at every
slash, keeping empty segments, and returns at least one segment. -/
def splitSlash : List Char → List String
  | [] => [""]
  | c :: rest =>
    let tail := splitSlash rest
    if c = '/' then "" :: tail
    else
      match tail with
      | [] => [String.mk [c]]
      | s :: ss => String.mk (c :: s.data) :: ss

/-- `cache.SplitMetaNamespaceKey` from client-go, the decoder used at
controller.go line 114: one segment means cluster-scoped (empty namespace),
two segments mean namespace and name, anything else is an error. -/
def SplitMetaNamespaceKey (key : String) : Except String (String × String) :=
  match splitSlash key.data with
  | [name] => Except.ok ("", name)
  | [ns, name] => Except.ok (ns, name)
  | _ => Except.error ("unexpected key format: " ++ key)

/-- The body of `processNextWorkItem` after a successful `Get`, from the key
decode (line 114) to the return (lines 115-138): the trace of calls made and
the boolean returned.  The deferred `Done` is not part of the body; it is
appended by `processNextWorkItem`. -/
def handleKey (env : Env) (key : String) : List Event × Bool :=
  match SplitMetaNamespaceKey key with
  | Except.error _ =>
    ([.logError ("Can't recognize key of release: " ++ key)], false)
  | Except.ok (ns, name) =>
    match env.lookup ns name with
    | .errOther => ([.logError ("Can't get release: " ++ key)], false)
    | .errNotFound =>
      if env.deleteErr ns name then
        ([.deleteCall ns name, .queueOp (.addRateLimited key),
          .logError ("Can't handle release: " ++ key)], false)
      else
        ([.deleteCall ns name], true)
    | .found r =>
      if env.triggerErr r then
        ([.triggerCall r, .queueOp (.addRateLimited key),
          .logError ("Can't handle release: " ++ key)], false)
      else
        ([.triggerCall r], true)

/-- `processNextWorkItem` (controller.go lines 106-139).  `getResult` is the
outcome of `rc.queue.Get()`: `none` models `quit = true`, `some key` a
dequeued key.  On quit the function logs and returns `false` without `Done`;
otherwise `defer rc.queue.Done(key)` runs last on every path, so the `done`
operation is appended at the end of the body's trace. -/
def processNextWorkItem (env : Env) (getResult : Option String) :
    List Event × Bool :=
  match getResult with
  | none => ([.logError "Unexpected quit of release queue"], false)
  | some key =>
    let body := handleKey env key
    (body.1 ++ [.queueOp (.done key)], body.2)

/-- The drain loop `for rc.processNextWorkItem() {}` of `worker`
(controller.go lines 101-102), run against a finite script of `Get`
outcomes: it keeps processing while `processNextWorkItem` returns `true`
and stops at the first `false`. -/
def drainLoop (env : Env) : List (Option String) → List Event
  | [] => []
  | g :: rest =>
    let step := processNextWorkItem env g
    if step.2 then step.1 ++ drainLoop env rest else step.1

/-- `worker` (controller.go lines 96-103): one wake-up cycle.  It first calls
`rc.manager.Run()` (logging the error if any, `managerRunErr = true`), then
drains the queue. -/
def worker (env : Env) (managerRunErr : Bool)
    (script : List (Option String)) : List Event :=
  (if managerRunErr then
    [Event.managerRun, Event.logError "Can't run manager"]
  else
    [Event.managerRun])
    ++ drainLoop env script

/-! ## Controller lifecycle (`Run`, controller.go lines 77-91) -/

/-- One observable step of the controller's `Run` entry point. -/
inductive RunEvent where
  | logInfo (msg : String)
  | logError (msg : String)
  | waitForCacheSync (synced : Bool)
  | startWorkerLoop
  | awaitStop
  | queueShutDown
  deriving DecidableEq

/-- `Run(stopCh)` as a trace of its observable steps, parameterised by
whether `cache.WaitForCacheSync` succeeds.  On sync failure it logs and
returns; otherwise it starts the worker loop (`go wait.Until(rc.worker,
time.Second, stopCh)`), blocks on `<-stopCh`, logs the shutdown message and
returns. -/
def Run (synced : Bool) : List RunEvent :=
  if synced then
    [.logInfo "Running ReleaseController", .waitForCacheSync true,
     .logInfo "Sync ReleaseController cache successfully",
     .startWorkerLoop, .awaitStop,
     .logInfo "Shutting down ReleaseController"]
  else
    [.logInfo "Running ReleaseController", .waitForCacheSync false,
     .logError "Can't sync cache"]

/-! ## Change notifier adapter (event handlers and enqueue path) -/

/-- An object delivered to an informer event handler: a release object, a
`cache.DeletedFinalStateUnknown` tombstone carrying the key of an object
deleted while unobserved, or a malformed object with no metadata. -/
inductive WatchObj where
  | obj (r : Release)
  | tombstone (key : String)
  | malformed
  deriving DecidableEq

/-- `cache.MetaNamespaceKeyFunc`: `namespace ++ "/" ++ name`, or just `name`
for a cluster-scoped object; errors on an object without metadata. -/
def MetaNamespaceKeyFunc : WatchObj → Except String String
  | .obj r => Except.ok (if r.ns = "" then r.name else r.ns ++ "/" ++ r.name)
  | .tombstone _ => Except.error "object has no meta"
  | .malformed => Except.error "object has no meta"

/-- `cache.DeletionHandlingMetaNamespaceKeyFunc`: unwraps a tombstone to its
stored key, and otherwise defers to `MetaNamespaceKeyFunc`. -/
def DeletionHandlingMetaNamespaceKeyFunc : WatchObj → Except String String
  | .tombstone key => Except.ok key
  | o => MetaNamespaceKeyFunc o

/-- `keyForObj` (controller.go lines 59-61). -/
def keyForObj (o : WatchObj) : Except String String :=
  DeletionHandlingMetaNamespaceKeyFunc o

/-- `enqueueRelease` (controller.go lines 64-74): on key-derivation failure,
log and return without touching the queue; otherwise `rc.queue.Add(key)`. -/
def enqueueRelease (o : WatchObj) : List Event :=
  match keyForObj o with
  | Except.error e => [.logError ("Can't get obj key: " ++ e)]
  | Except.ok key => [.queueOp (.add key)]

/-- The informer `AddFunc` registered in `NewReleaseController` (line 49). -/
def onAddFunc (o : WatchObj) : List Event :=
  enqueueRelease o

/-- The informer `UpdateFunc` (lines 50-52): enqueues the new object. -/
def onUpdateFunc (_oldObj newObj : WatchObj) : List Event :=
  enqueueRelease newObj

/-- The informer `DeleteFunc` (line 53). -/
def onDeleteFunc (o : WatchObj) : List Event :=
  enqueueRelease o

/-! ## Concrete environments used as witnesses -/

/-- Lookup is not-found everywhere and `Delete` succeeds. -/
def envDeleteOk : Env :=
  ⟨fun _ _ => .errNotFound, fun _ => false, fun _ _ => false⟩

/-- Lookup is not-found everywhere and `Delete` fails. -/
def envDeleteErr : Env :=
  ⟨fun _ _ => .errNotFound, fun _ => false, fun _ _ => true⟩

/-- Lookup fails everywhere with a non-not-found error. -/
def envLookupErr : Env :=
  ⟨fun _ _ => .errOther, fun _ => false, fun _ _ => false⟩

/-- Lookup finds the release and `Trigger` fails. -/
def envTriggerErr : Env :=
  ⟨fun ns name => .found ⟨ns, name⟩, fun _ => true, fun _ _ => false⟩

/-- Lookup finds the release and `Trigger` succeeds. -/
def envTriggerOk : Env :=
  ⟨fun ns name => .found ⟨ns, name⟩, fun _ => false, fun _ _ => false⟩

/-! ## Theorems -/

/-- Claim C7: each of the five condition constructors is a fixed, total mapping
from reason to (type, status): `ConditionCreating`, `ConditionUpdating` and
`ConditionRollbacking` produce type Progressing with status True;
`ConditionAvailable` produces type Available with status True;
`ConditionFailure` produces type Failure with status True; and every
constructor populates all five fields of the condition, including the
current timestamp `now`. -/
theorem condition_constructors_fixed_total (now : Nat) (msg : String) :
    ConditionCreating now =
      ⟨.ReleaseProgressing, .ConditionTrue, now, ReasonCreating, ""⟩ ∧
    ConditionUpdating now =
      ⟨.ReleaseProgressing, .ConditionTrue, now, ReasonUpdating, ""⟩ ∧
    ConditionRollbacking now =
      ⟨.ReleaseProgressing, .ConditionTrue, now, ReasonRollbacking, ""⟩ ∧
    ConditionAvailable now =
      ⟨.ReleaseAvailable, .ConditionTrue, now, ReasonAvailable, ""⟩ ∧
    ConditionFailure now msg =
      ⟨.ReleaseFailure, .ConditionTrue, now, ReasonFailure, msg⟩ :=
  ⟨rfl, rfl, rfl, rfl, rfl⟩

/-! ## Helper lemmas: calls `handleKey` never makes -/

/-- The body of `processNextWorkItem` before the deferred call never invokes
`Done` itself: the only queue operation it may emit is `AddRateLimited`. -/
theorem handleKey_no_done (env : Env) (key k : String) :
    Event.queueOp (QueueOp.done k) ∉ (handleKey env key).1 := by
  unfold handleKey
  split
  · simp
  · split
    · simp
    · split <;> simp
    · split <;> simp

/-- No path of `processNextWorkItem` calls `Forget`. -/
theorem handleKey_no_forget (env : Env) (key k : String) :
    Event.queueOp (QueueOp.forget k) ∉ (handleKey env key).1 := by
  unfold handleKey
  split
  · simp
  · split
    · simp
    · split <;> simp
    · split <;> simp

/-- `processNextWorkItem` never invokes the consistency sweep. -/
theorem handleKey_no_managerRun (env : Env) (key : String) :
    Event.managerRun ∉ (handleKey env key).1 := by
  unfold handleKey
  split
  · simp
  · split
    · simp
    · split <;> simp
    · split <;> simp

/-- `processNextWorkItem` never invokes the consistency sweep, including the
deferred `Done` and the quit path. -/
theorem processNextWorkItem_no_managerRun (env : Env) (g : Option String) :
    Event.managerRun ∉ (processNextWorkItem env g).1 := by
  cases g with
  | none => simp [processNextWorkItem]
  | some key =>
    intro h
    exact handleKey_no_managerRun env key (by simpa [processNextWorkItem] using h)

/-- The drain loop never invokes the consistency sweep. -/
theorem drainLoop_no_managerRun (env : Env) (script : List (Option String)) :
    Event.managerRun ∉ drainLoop env script := by
  induction script with
  | nil => simp [drainLoop]
  | cons g rest ih =>
    simp only [drainLoop]
    split
    · intro h
      rcases List.mem_append.1 h with h' | h'
      · exact processNextWorkItem_no_managerRun env g h'
      · exact ih h'
    · exact processNextWorkItem_no_managerRun env g

/-- No path of `processNextWorkItem` calls `Forget`, deferred `Done` and quit
path included. -/
theorem processNextWorkItem_no_forget (env : Env) (g : Option String)
    (k : String) :
    Event.queueOp (QueueOp.forget k) ∉ (processNextWorkItem env g).1 := by
  cases g with
  | none => simp [processNextWorkItem]
  | some key =>
    intro h
    exact handleKey_no_forget env key k (by simpa [processNextWorkItem] using h)

/-! ## Claim theorems -/

/-- Claim C5: for every dequeued key whose decode into (namespace, name)
fails, the worker logs the failure and drops the item: it calls neither
`Trigger` nor `Delete`, does not call `AddRateLimited`, the key is not
re-enqueued (no `Add` either), and the attempt ends with `false`. -/
theorem malformed_key_logged_and_dropped (env : Env) (key e : String)
    (h : SplitMetaNamespaceKey key = Except.error e) :
    (∀ r, Event.triggerCall r ∉ (processNextWorkItem env (some key)).1) ∧
    (∀ ns name,
      Event.deleteCall ns name ∉ (processNextWorkItem env (some key)).1) ∧
    (∀ k, Event.queueOp (QueueOp.addRateLimited k) ∉
      (processNextWorkItem env (some key)).1) ∧
    (∀ k, Event.queueOp (QueueOp.add k) ∉
      (processNextWorkItem env (some key)).1) ∧
    Event.logError ("Can't recognize key of release: " ++ key) ∈
      (processNextWorkItem env (some key)).1 ∧
    (processNextWorkItem env (some key)).2 = false := by
  have hp : processNextWorkItem env (some key) =
      ([Event.logError ("Can't recognize key of release: " ++ key),
        Event.queueOp (QueueOp.done key)], false) := by
    simp [processNextWorkItem, handleKey, h]
  refine ⟨?_, ?_, ?_, ?_, ?_, ?_⟩ <;> simp [hp]

/-- Witness for C5 at the concrete malformed key `"a/b/c"` (three path
segments) in the all-not-found environment. -/
theorem malformed_key_logged_and_dropped_witness :
    Event.logError ("Can't recognize key of release: " ++ "a/b/c") ∈
      (processNextWorkItem envDeleteOk (some "a/b/c")).1 ∧
    (processNextWorkItem envDeleteOk (some "a/b/c")).2 = false ∧
    Event.queueOp (QueueOp.addRateLimited "a/b/c") ∉
      (processNextWorkItem envDeleteOk (some "a/b/c")).1 :=
  ⟨(malformed_key_logged_and_dropped envDeleteOk "a/b/c"
      ("unexpected key format: " ++ "a/b/c") rfl).2.2.2.2.1,
   (malformed_key_logged_and_dropped envDeleteOk "a/b/c"
      ("unexpected key format: " ++ "a/b/c") rfl).2.2.2.2.2,
   (malformed_key_logged_and_dropped envDeleteOk "a/b/c"
      ("unexpected key format: " ++ "a/b/c") rfl).2.2.1 "a/b/c"⟩

/-- Claim C4: for every dequeued key, if `Trigger(release)` or
`Delete(namespace, name)` returns an error, the worker calls
`AddRateLimited(key)` and then `Done(key)` (the deferred `Done` runs last),
and the attempt returns `false`; the whole path is a total function of the
environment, so the per-item error never escapes as a panic. -/
theorem trigger_delete_error_rate_limited_then_done (env : Env)
    (key ns name : String)
    (hk : SplitMetaNamespaceKey key = Except.ok (ns, name)) :
    (∀ r, env.lookup ns name = LookupResult.found r →
      env.triggerErr r = true →
      processNextWorkItem env (some key) =
        ([Event.triggerCall r, Event.queueOp (QueueOp.addRateLimited key),
          Event.logError ("Can't handle release: " ++ key),
          Event.queueOp (QueueOp.done key)], false)) ∧
    (env.lookup ns name = LookupResult.errNotFound →
      env.deleteErr ns name = true →
      processNextWorkItem env (some key) =
        ([Event.deleteCall ns name, Event.queueOp (QueueOp.addRateLimited key),
          Event.logError ("Can't handle release: " ++ key),
          Event.queueOp (QueueOp.done key)], false)) := by
  constructor
  · intro r hl ht
    simp [processNextWorkItem, handleKey, hk, hl, ht]
  · intro hl hd
    simp [processNextWorkItem, handleKey, hk, hl, hd]

/-- Witness for C4: a failing `Delete` on key `"a/r1"` yields
`AddRateLimited` then `Done` and returns `false`. -/
theorem trigger_delete_error_rate_limited_then_done_witness :
    processNextWorkItem envDeleteErr (some "a/r1") =
      ([Event.deleteCall "a" "r1", Event.queueOp (QueueOp.addRateLimited "a/r1"),
        Event.logError ("Can't handle release: " ++ "a/r1"),
        Event.queueOp (QueueOp.done "a/r1")], false) :=
  (trigger_delete_error_rate_limited_then_done envDeleteErr
    "a/r1" "a" "r1" rfl).2 rfl rfl

/-- Claim C10: for every key successfully dequeued (the non-shutdown case),
`Done(key)` appears exactly once in the trace of `processNextWorkItem`, and
it is the last call before the function returns, on every control-flow path. -/
theorem dequeued_key_done_exactly_once (env : Env) (key : String) :
    ((processNextWorkItem env (some key)).1.count
      (Event.queueOp (QueueOp.done key)) = 1) ∧
    ((processNextWorkItem env (some key)).1.getLast? =
      some (Event.queueOp (QueueOp.done key))) := by
  constructor
  · have h0 : (handleKey env key).1.count (Event.queueOp (QueueOp.done key)) = 0 :=
      List.count_eq_zero.mpr (handleKey_no_done env key key)
    simp [processNextWorkItem, List.count_append, h0]
  · simp [processNextWorkItem, List.getLast?_concat]

/-- Claim C1, counterexample: as stated the claim is false.  On a
non-not-found lookup error for key `"a/r1"` the worker does not call
`AddRateLimited`; it logs and returns `false` (lines 119-123 return before
the requeue branch is reached). -/
theorem lookup_error_requeue_cex :
    envLookupErr.lookup "a" "r1" = LookupResult.errOther ∧
    Event.queueOp (QueueOp.addRateLimited "a/r1") ∉
      (processNextWorkItem envLookupErr (some "a/r1")).1 :=
  ⟨rfl, by decide⟩

/-- Claim C1, amended: for every dequeued key, if the cache lookup returns an
error that is not a not-found error, the worker logs the error and returns
`false` without calling `AddRateLimited`: only the deferred `Done(key)` runs,
so the item is dropped rather than requeued by the worker. -/
theorem lookup_error_logged_not_requeued (env : Env) (key ns name : String)
    (hk : SplitMetaNamespaceKey key = Except.ok (ns, name))
    (hl : env.lookup ns name = LookupResult.errOther) :
    processNextWorkItem env (some key) =
      ([Event.logError ("Can't get release: " ++ key),
        Event.queueOp (QueueOp.done key)], false) ∧
    (∀ k, Event.queueOp (QueueOp.addRateLimited k) ∉
      (processNextWorkItem env (some key)).1) := by
  have hp : processNextWorkItem env (some key) =
      ([Event.logError ("Can't get release: " ++ key),
        Event.queueOp (QueueOp.done key)], false) := by
    simp [processNextWorkItem, handleKey, hk, hl]
  refine ⟨hp, ?_⟩
  intro k
  simp [hp]

/-- Witness for the amended C1 at key `"a/r1"` in the failing-lookup
environment. -/
theorem lookup_error_logged_not_requeued_witness :
    processNextWorkItem envLookupErr (some "a/r1") =
      ([Event.logError ("Can't get release: " ++ "a/r1"),
        Event.queueOp (QueueOp.done "a/r1")], false) ∧
    Event.queueOp (QueueOp.addRateLimited "a/r1") ∉
      (processNextWorkItem envLookupErr (some "a/r1")).1 :=
  ⟨(lookup_error_logged_not_requeued envLookupErr "a/r1" "a" "r1" rfl rfl).1,
   (lookup_error_logged_not_requeued envLookupErr "a/r1" "a" "r1" rfl rfl).2
     "a/r1"⟩

/-- Claim C2, counterexample: as stated the claim is false.  On a successful
`Delete` for key `"a/r1"` the worker's trace is exactly the `Delete` call
followed by the deferred `Done`; no `Forget(key)` call occurs anywhere in
`processNextWorkItem`. -/
theorem success_forget_cex :
    processNextWorkItem envDeleteOk (some "a/r1") =
      ([Event.deleteCall "a" "r1", Event.queueOp (QueueOp.done "a/r1")], true) ∧
    Event.queueOp (QueueOp.forget "a/r1") ∉
      (processNextWorkItem envDeleteOk (some "a/r1")).1 :=
  ⟨rfl, by decide⟩

/-- Claim C2, amended: for every dequeued key whose reconcile action
(`Trigger` when found, `Delete` when not found) succeeds, the worker calls
`Done(key)` and returns `true`, but it never calls `Forget(key)`, so the
key's rate-limiter failure counter is not reset by the worker. -/
theorem success_done_but_never_forget (env : Env) (key ns name : String)
    (hk : SplitMetaNamespaceKey key = Except.ok (ns, name)) :
    (env.lookup ns name = LookupResult.errNotFound →
      env.deleteErr ns name = false →
      processNextWorkItem env (some key) =
        ([Event.deleteCall ns name, Event.queueOp (QueueOp.done key)], true)) ∧
    (∀ r, env.lookup ns name = LookupResult.found r →
      env.triggerErr r = false →
      processNextWorkItem env (some key) =
        ([Event.triggerCall r, Event.queueOp (QueueOp.done key)], true)) ∧
    (∀ k, Event.queueOp (QueueOp.forget k) ∉
      (processNextWorkItem env (some key)).1) := by
  refine ⟨?_, ?_, ?_⟩
  · intro hl hd
    simp [processNextWorkItem, handleKey, hk, hl, hd]
  · intro r hl ht
    simp [processNextWorkItem, handleKey, hk, hl, ht]
  · intro k
    exact processNextWorkItem_no_forget env (some key) k

/-- Witness for the amended C2: a successful `Trigger` on key `"a/r1"` ends
with `Done` and `true`, and no `Forget` appears in the trace. -/
theorem success_done_but_never_forget_witness :
    processNextWorkItem envTriggerOk (some "a/r1") =
      ([Event.triggerCall ⟨"a", "r1"⟩,
        Event.queueOp (QueueOp.done "a/r1")], true) ∧
    Event.queueOp (QueueOp.forget "a/r1") ∉
      (processNextWorkItem envTriggerOk (some "a/r1")).1 :=
  ⟨(success_done_but_never_forget envTriggerOk "a/r1" "a" "r1" rfl).2.1
      ⟨"a", "r1"⟩ rfl rfl,
   (success_done_but_never_forget envTriggerOk "a/r1" "a" "r1" rfl).2.2 "a/r1"⟩

/-- Claim C3, counterexample: as stated the claim is false.  `Run` reaches
the shutdown log as its last step and returns, but `queue.ShutDown()` never
occurs in its trace (controller.go lines 77-91 contain no `ShutDown` call;
line 109 even logs a queue quit as unexpected). -/
theorem run_shutdown_cex :
    (Run true).getLast? =
      some (RunEvent.logInfo "Shutting down ReleaseController") ∧
    RunEvent.queueShutDown ∉ Run true :=
  ⟨rfl, by decide⟩

/-- Claim C3, amended: when the external stop signal fires, `Run` logs the
shutdown message and returns; it never calls `ShutDown()` on the retry queue
(on either the synced or the failed-sync path), so pending `Get` calls are
not unblocked by `Run`. -/
theorem run_returns_without_queue_shutdown :
    RunEvent.queueShutDown ∉ Run true ∧
    RunEvent.queueShutDown ∉ Run false ∧
    Run true =
      [.logInfo "Running ReleaseController", .waitForCacheSync true,
       .logInfo "Sync ReleaseController cache successfully",
       .startWorkerLoop, .awaitStop,
       .logInfo "Shutting down ReleaseController"] :=
  ⟨by decide, by decide, rfl⟩

/-- Claim C6: in every worker wake-up cycle the consistency sweep
`manager.Run()` is invoked exactly once, as the very first call of the cycle
— before any `Trigger` or `Delete` of that cycle — and never again while
items are processed, whatever the environment, the sweep's error outcome and
the queue script. -/
theorem manager_run_once_before_items (env : Env) (mErr : Bool)
    (script : List (Option String)) :
    ∃ rest, worker env mErr script = Event.managerRun :: rest ∧
      Event.managerRun ∉ rest := by
  cases mErr with
  | false =>
    exact ⟨drainLoop env script, by simp [worker],
      drainLoop_no_managerRun env script⟩
  | true =>
    refine ⟨Event.logError "Can't run manager" :: drainLoop env script,
      by simp [worker], ?_⟩
    intro h
    rcases List.mem_cons.1 h with h' | h'
    · exact Event.noConfusion h'
    · exact drainLoop_no_managerRun env script h'

/-- Claim C8: delete events are handled by the same enqueue path as add and
update events — all three informer handlers are `enqueueRelease` (the update
handler on the new object); a tombstone still resolves to its stored key and
is enqueued with `Add`; and when key derivation fails the event is only
logged, with no queue operation at all. -/
theorem delete_same_enqueue_path :
    (∀ o : WatchObj, onDeleteFunc o = onAddFunc o) ∧
    (∀ o o2 : WatchObj, onUpdateFunc o o2 = onAddFunc o2) ∧
    (∀ key : String, onDeleteFunc (WatchObj.tombstone key) =
      [Event.queueOp (QueueOp.add key)]) ∧
    (∀ o e, keyForObj o = Except.error e →
      enqueueRelease o = [Event.logError ("Can't get obj key: " ++ e)]) := by
  refine ⟨fun o => rfl, fun o o2 => rfl, fun key => rfl, ?_⟩
  intro o e h
  simp [enqueueRelease, h]

/-- Witness for C8: a malformed object fails key derivation and produces
only a log record. -/
theorem delete_same_enqueue_path_witness :
    enqueueRelease WatchObj.malformed =
      [Event.logError ("Can't get obj key: " ++ "object has no meta")] :=
  delete_same_enqueue_path.2.2.2 WatchObj.malformed "object has no meta" rfl

/-- Claim C9: `processNextWorkItem` returns `true` exactly when a key was
dequeued, decoded, and its reconcile action (`Delete` on not-found, `Trigger`
on found) succeeded; it returns `false` on shutdown, decode failure,
non-not-found lookup error and action error.  Consequently the drain loop
stops at the first failing item, leaving the rest of the script unprocessed,
and the next wake-up cycle starts with `manager.Run()` again. -/
theorem process_next_work_item_true_iff (env : Env) (g : Option String) :
    ((processNextWorkItem env g).2 = true ↔
      ∃ key ns name, g = some key ∧
        SplitMetaNamespaceKey key = Except.ok (ns, name) ∧
        ((env.lookup ns name = LookupResult.errNotFound ∧
            env.deleteErr ns name = false) ∨
          (∃ r, env.lookup ns name = LookupResult.found r ∧
            env.triggerErr r = false))) ∧
    (∀ rest, (processNextWorkItem env g).2 = false →
      drainLoop env (g :: rest) = (processNextWorkItem env g).1) ∧
    (∀ mErr script, (worker env mErr script).head? = some Event.managerRun) := by
  refine ⟨?_, ?_, ?_⟩
  · cases g with
    | none => simp [processNextWorkItem]
    | some key =>
      simp only [processNextWorkItem, Option.some.injEq]
      cases hk : SplitMetaNamespaceKey key with
      | error e => simp [handleKey, hk]
      | ok p =>
        obtain ⟨ns, name⟩ := p
        cases hl : env.lookup ns name with
        | errOther => simp [handleKey, hk, hl]
        | errNotFound =>
          cases hd : env.deleteErr ns name with
          | false =>
            simp [handleKey, hk, hl, hd]
            exact ⟨ns, name, ⟨rfl, rfl⟩, Or.inl ⟨hl, hd⟩⟩
          | true => simp [handleKey, hk, hl, hd]
        | found r =>
          cases ht : env.triggerErr r with
          | false =>
            simp [handleKey, hk, hl, ht]
            exact ⟨ns, name, ⟨rfl, rfl⟩, Or.inr ⟨r, hl, ht⟩⟩
          | true => simp [handleKey, hk, hl, ht]
  · intro rest h
    simp [drainLoop, h]
  · intro mErr script
    cases mErr <;> simp [worker]

/-- Witness for C9: the drain loop on script `["a/r1", "b/r2"]` in the
failing-lookup environment stops after the first item; `"b/r2"` is never
processed in this cycle. -/
theorem process_next_work_item_true_iff_witness :
    drainLoop envLookupErr [some "a/r1", some "b/r2"] =
      (processNextWorkItem envLookupErr (some "a/r1")).1 :=
  (process_next_work_item_true_iff envLookupErr (some "a/r1")).2.1
    [some "b/r2"] rfl

end ReleaseController
